import Mathlib

/-!
Verification of the cattle-farm monitoring backend.

Shallow embedding of the GPS ingestion route (`router.post('/')` in the GPS
router), the virtual-fence creation handler (`createVirtualFence`), the remote
configuration / command-enqueue handler (`updateRemoteConfig`), the device
alert handler (`handleAlert`) and the command poll contract.

Conventions of the embedding:
* JavaScript numbers are modelled as rationals (`Rat`); identifiers as `Int`
  or `Nat`; timestamps as `Nat` (milliseconds) for the GPS pipeline and `Rat`
  for command expiry arithmetic.
* A request field that may be absent (JS `undefined`/`null`) is an `Option`.
* JS truthiness is modelled explicitly: `0`, the empty string, `null` and
  `undefined` are falsy, everything else is truthy.
* `executeQuery` (from `database.js`, which checks its own errors) signals
  failure either by returning a result whose `success` flag is false, or by
  throwing; route handlers check the flag in some places and catch in
  others.  A call outcome is therefore one of `ok` (success), `errRes`
  (result with `success: false`) or `exn` (thrown exception).  A failed
  query performs no write.
-/

namespace CattleFarm

/-- Outcome of one `executeQuery` call: success, a returned result whose
`success` flag is false, or a thrown exception. -/
inductive QueryOutcome where
  | ok
  | errRes
  | exn
deriving DecidableEq

/-- An HTTP JSON response: status code, `success` flag, `message`, and the
optional `id` field some handlers include. -/
structure Resp where
  status : Nat
  success : Bool
  message : String
  id : Option Nat := none
deriving DecidableEq

/-- JS truthiness for an optional string: absent or empty is falsy. -/
def strTruthy : Option String → Bool
  | none => false
  | some s => decide (s ≠ "")

/-- JS `s || null`: a truthy string stays, a falsy one becomes `null`. -/
def strOrNull : Option String → Option String
  | none => none
  | some s => if s = "" then none else some s

/-- JS truthiness for an optional integer: absent or `0` is falsy. -/
def intTruthy : Option Int → Bool
  | none => false
  | some n => decide (n ≠ 0)

/-- JS `n || null` on an optional natural number (`0` is falsy). -/
def natTruthy : Option Nat → Option Nat
  | none => none
  | some n => if n = 0 then none else some n

/-- JS truthiness for an optional rational: absent or `0` is falsy. -/
def ratTruthy : Option Rat → Bool
  | none => false
  | some q => decide (q ≠ 0)

/-- JS `x || d` for an optional numeric value (`0` falls back to `d`). -/
def ratOr (o : Option Rat) (d : Rat) : Rat :=
  match o with
  | none => d
  | some x => if x = 0 then d else x

/-- JS `Number(x)` for a coordinate taken from the request body.
`Number(null)` is `0`.  (A fully absent field would give `NaN`; every write
modelled below is reached only with the coordinate present or `null`, the
claims under study always supply it.) -/
def jsNum (o : Option Rat) : Rat := o.getD 0

/-! ## Telemetry store: `animal_locations` and `current_locations` -/

/-- A row of the append-only `animal_locations` history table. -/
structure HistoryRecord where
  id : Nat
  animal_id : Option Int
  collar_id : Option Int
  latitude : Rat
  longitude : Rat
  altitude_meters : Option Rat
  accuracy_meters : Option Rat
  speed_kmh : Option Rat
  heading_degrees : Option Rat
  recorded_at : Nat
  battery_level : Option Rat
  signal_quality : Option Rat
  temperature_celsius : Option Rat
deriving DecidableEq

/-- A row of the mutable `current_locations` table (one per entity key). -/
structure CurrentRecord where
  animal_id : Option Int
  collar_id : Option Int
  latitude : Rat
  longitude : Rat
  recorded_at : Nat
  battery_level : Option Rat
  signal_quality : Option Rat
  temperature_celsius : Option Rat
deriving DecidableEq

/-- Modelled from the spec: the unique key of `current_locations`.  The
table's schema is not among the sources; per the spec a CurrentRecord is
keyed by the entity identity the report carries (animal and collar ids),
with the reserved sentinel `animal_id = 0` row for unattributed points. -/
def CurrentRecord.key (c : CurrentRecord) : Option Int × Option Int :=
  (c.animal_id, c.collar_id)

/-- The `ON DUPLICATE KEY UPDATE` column list shared by the correction and
entity-attributed upserts: latitude, longitude, recorded_at, battery_level,
signal_quality, temperature_celsius.  Rows with a different key are kept. -/
def updateCurrentFields (row c : CurrentRecord) : CurrentRecord :=
  if c.key = row.key then
    { c with latitude := row.latitude, longitude := row.longitude,
             recorded_at := row.recorded_at, battery_level := row.battery_level,
             signal_quality := row.signal_quality,
             temperature_celsius := row.temperature_celsius }
  else c

/-- `INSERT INTO current_locations ... ON DUPLICATE KEY UPDATE` with the full
column list (correction and entity-attributed branches). -/
def upsertCurrentFull (cs : List CurrentRecord) (row : CurrentRecord) :
    List CurrentRecord :=
  if cs.any (fun c => decide (c.key = row.key)) then
    cs.map (updateCurrentFields row)
  else cs ++ [row]

/-- The raw-GPS upsert only overwrites latitude, longitude and recorded_at. -/
def updateCurrentRawFields (row c : CurrentRecord) : CurrentRecord :=
  if c.key = row.key then
    { c with latitude := row.latitude, longitude := row.longitude,
             recorded_at := row.recorded_at }
  else c

/-- `INSERT INTO current_locations (animal_id, collar_id, latitude,
longitude, recorded_at) VALUES (0, NULL, ?, ?, ?) ON DUPLICATE KEY UPDATE
latitude, longitude, recorded_at` (raw-GPS branch). -/
def upsertCurrentRaw (cs : List CurrentRecord) (row : CurrentRecord) :
    List CurrentRecord :=
  if cs.any (fun c => decide (c.key = row.key)) then
    cs.map (updateCurrentRawFields row)
  else cs ++ [row]

/-- The telemetry store: history table, current table, and the next
auto-increment id of `animal_locations`. -/
structure Store where
  animal_locations : List HistoryRecord
  current_locations : List CurrentRecord
  nextId : Nat
deriving DecidableEq

/-! ## The GPS ingestion route -/

/-- The request body of `POST /gps` after destructuring (absent fields and
explicit `null`s are `none`; defaults in the destructuring are all `null`). -/
structure LocationReport where
  latitude : Option Rat := none
  longitude : Option Rat := none
  animal_id : Option Int := none
  collar_id : Option Int := none
  altitude_meters : Option Rat := none
  accuracy_meters : Option Rat := none
  speed_kmh : Option Rat := none
  heading_degrees : Option Rat := none
  recorded_at : Option Nat := none
  battery_level : Option Rat := none
  signal_quality : Option Rat := none
  temperature_celsius : Option Rat := none
  update_id : Option Nat := none
  id : Option Nat := none
deriving DecidableEq

/-- `const updateId = req.body.update_id || req.body.id || null`. -/
def jsUpdateId (r : LocationReport) : Option Nat :=
  match natTruthy r.update_id with
  | some u => some u
  | none => natTruthy r.id

/-- The `UPDATE animal_locations SET ... WHERE id = ?` correction statement,
applied to one history row: a full overwrite of every reported column when
the row id matches, identity otherwise. -/
def overwriteLocationRow (r : LocationReport) (now : Nat) (uid : Nat)
    (h : HistoryRecord) : HistoryRecord :=
  if h.id = uid then
    { id := h.id, animal_id := r.animal_id, collar_id := r.collar_id,
      latitude := jsNum r.latitude, longitude := jsNum r.longitude,
      altitude_meters := r.altitude_meters,
      accuracy_meters := r.accuracy_meters, speed_kmh := r.speed_kmh,
      heading_degrees := r.heading_degrees,
      recorded_at := r.recorded_at.getD now,
      battery_level := r.battery_level, signal_quality := r.signal_quality,
      temperature_celsius := r.temperature_celsius }
  else h

/-- The `animal_locations` insert row of the entity-attributed branch. -/
def histRowOf (r : LocationReport) (id now : Nat) : HistoryRecord :=
  { id := id, animal_id := r.animal_id, collar_id := r.collar_id,
    latitude := jsNum r.latitude, longitude := jsNum r.longitude,
    altitude_meters := r.altitude_meters, accuracy_meters := r.accuracy_meters,
    speed_kmh := r.speed_kmh, heading_degrees := r.heading_degrees,
    recorded_at := r.recorded_at.getD now,
    battery_level := r.battery_level, signal_quality := r.signal_quality,
    temperature_celsius := r.temperature_celsius }

/-- The `current_locations` upsert row used by both the correction branch
and the entity-attributed branch (identical parameter lists in the source).
The live event emitted after the upsert carries exactly these fields. -/
def currRowOf (r : LocationReport) (now : Nat) : CurrentRecord :=
  { animal_id := r.animal_id, collar_id := r.collar_id,
    latitude := jsNum r.latitude, longitude := jsNum r.longitude,
    recorded_at := r.recorded_at.getD now,
    battery_level := r.battery_level, signal_quality := r.signal_quality,
    temperature_celsius := r.temperature_celsius }

/-- The sentinel row `(0, NULL, lat, lon, now)` of the raw-GPS branch; its
`recorded_at` is the server time, the report's `recorded_at` is ignored. -/
def sentinelRowOf (r : LocationReport) (now : Nat) : CurrentRecord :=
  { animal_id := some 0, collar_id := none,
    latitude := jsNum r.latitude, longitude := jsNum r.longitude,
    recorded_at := now, battery_level := none, signal_quality := none,
    temperature_celsius := none }

/-- Result of one call of the ingestion route: the store, the list of live
events delivered to subscribers so far, and the HTTP response. -/
structure IngestOut where
  store : Store
  events : List CurrentRecord
  resp : Resp
deriving DecidableEq

/-- The `POST /gps` route handler.  `q1` is the outcome of the first query
the taken branch issues (the history `UPDATE`, the history `INSERT`, or the
raw upsert), `q2` the outcome of the follow-up `current_locations` upsert
(unused by the raw branch), `emitThrows` whether `gpsEmitter.emit` throws.

The source checks `success` of the history update/insert and of the raw
upsert, but *ignores* the result of the follow-up upsert (`await
executeQuery(upsertSql, upsertParams);`), so a follow-up upsert that merely
reports failure still falls through to the emit; only a thrown exception
skips it (the surrounding `try`/`catch`). -/
def ingest (db : Store) (events : List CurrentRecord) (r : LocationReport)
    (now : Nat) (q1 q2 : QueryOutcome) (emitThrows : Bool) : IngestOut :=
  match jsUpdateId r with
  | some uid =>
    match q1 with
    | .exn => ⟨db, events, ⟨500, false, "Internal server error", none⟩⟩
    | .errRes =>
      ⟨db, events, ⟨500, false, "Failed to update animal_locations", none⟩⟩
    | .ok =>
      let db1 : Store :=
        { db with animal_locations :=
            db.animal_locations.map (overwriteLocationRow r now uid) }
      let row := currRowOf r now
      let db2 : Store :=
        match q2 with
        | .ok => { db1 with current_locations :=
                     upsertCurrentFull db1.current_locations row }
        | _ => db1
      let ev2 : List CurrentRecord :=
        match q2 with
        | .exn => events
        | _ => if emitThrows then events else events ++ [row]
      ⟨db2, ev2, ⟨200, true, "GPS record updated", some uid⟩⟩
  | none =>
    if r.latitude.isNone || r.longitude.isNone then
      ⟨db, events, ⟨400, false, "Missing coordinates", none⟩⟩
    else if intTruthy r.animal_id || intTruthy r.collar_id then
      match q1 with
      | .exn => ⟨db, events, ⟨500, false, "Internal server error", none⟩⟩
      | .errRes => ⟨db, events, ⟨500, false, "Database error", none⟩⟩
      | .ok =>
        let db1 : Store :=
          { db with
              animal_locations :=
                db.animal_locations ++ [histRowOf r db.nextId now],
              nextId := db.nextId + 1 }
        let row := currRowOf r now
        let db2 : Store :=
          match q2 with
          | .ok => { db1 with current_locations :=
                       upsertCurrentFull db1.current_locations row }
          | _ => db1
        let ev2 : List CurrentRecord :=
          match q2 with
          | .exn => events
          | _ => if emitThrows then events else events ++ [row]
        ⟨db2, ev2,
         ⟨200, true, "Animal location saved", natTruthy (some db.nextId)⟩⟩
    else
      match q1 with
      | .exn => ⟨db, events, ⟨500, false, "Internal server error", none⟩⟩
      | .errRes => ⟨db, events, ⟨500, false, "Database error", none⟩⟩
      | .ok =>
        let row := sentinelRowOf r now
        let db2 : Store :=
          { db with current_locations :=
              upsertCurrentRaw db.current_locations row }
        let ev2 : List CurrentRecord :=
          if emitThrows then events else events ++ [row]
        ⟨db2, ev2,
         ⟨200, true, "GPS coordinates saved (updated current location)",
          none⟩⟩

/-! ## Command queue and remote configuration -/

/-- Payload of a device command: control `{sound?, lights?}` or wifi
credentials `{ssid, password}`. -/
inductive CmdPayload where
  | control (sound lights : Option Bool)
  | wifi (ssid password : Option String)
deriving DecidableEq

/-- A row of the `device_commands` table.  The insert in
`updateRemoteConfig` names only device_id, command_type, payload and
expires_at; `status` is filled by the schema default.  Modelled from the
spec for that default: the schema is not among the sources and the spec
says a command is created in `pending` state. -/
structure Command where
  id : Nat
  device_id : String
  command_type : String
  payload : CmdPayload
  expires_at : Rat
  status : String
deriving DecidableEq

/-- The `device_commands` table plus its next auto-increment id. -/
structure CommandStore where
  commands : List Command
  nextId : Nat
deriving DecidableEq

/-- The columns of `system_settings` that `updateRemoteConfig` may touch
(the table has no wifi column; the update lists only these three). -/
structure SystemSettings where
  default_sound_enabled : Option Bool
  default_lights_enabled : Option Bool
  sensor_threshold : Option Rat
deriving DecidableEq

/-- Request body of `POST /settings/remote-config`. -/
structure RemoteConfigReq where
  sensorThreshold : Option Rat := none
  soundEnabled : Option Bool := none
  lightsEnabled : Option Bool := none
  wifiSSID : Option String := none
  wifiPassword : Option String := none
  device_id : Option String := none
  expires_hours : Option Rat := none
deriving DecidableEq

/-- Result of `updateRemoteConfig`: command store, settings row, the
`data` array of `{type, id}` echoes, and the response. -/
structure RemoteConfigOut where
  cmdStore : CommandStore
  settings : SystemSettings
  inserted : List (String × Option Nat)
  resp : Resp
deriving DecidableEq

/-- The wifi_update half of the device branch of `updateRemoteConfig`:
runs after the control half, `ins` being the inserts echoed so far. -/
def enqueueWifi (cmds : CommandStore) (settings : SystemSettings)
    (req : RemoteConfigReq) (now : Rat) (qWifi : QueryOutcome)
    (ins : List (String × Option Nat)) : RemoteConfigOut :=
  if strTruthy req.wifiSSID || strTruthy req.wifiPassword then
    match qWifi with
    | .ok =>
      let wifi : Command :=
        ⟨cmds.nextId, req.device_id.getD "", "wifi_update",
         .wifi (strOrNull req.wifiSSID) (strOrNull req.wifiPassword),
         now + ratOr req.expires_hours 24 * 3600000, "pending"⟩
      ⟨⟨cmds.commands ++ [wifi], cmds.nextId + 1⟩, settings,
       ins ++ [("wifi_update", natTruthy (some cmds.nextId))],
       ⟨200, true, "Commands enqueued", none⟩⟩
    | .errRes =>
      ⟨cmds, settings, ins,
       ⟨500, false, "Failed to enqueue wifi_update command", none⟩⟩
    | .exn =>
      ⟨cmds, settings, ins,
       ⟨500, false, "Failed to update remote config", none⟩⟩
  else
    ⟨cmds, settings, ins, ⟨200, true, "Commands enqueued", none⟩⟩

/-- The requested `system_settings` column updates (`default_sound_enabled`,
`default_lights_enabled`, `sensor_threshold` — nothing else). -/
def applySystemSettings (settings : SystemSettings) (req : RemoteConfigReq) :
    SystemSettings :=
  ⟨if req.soundEnabled.isSome then req.soundEnabled
    else settings.default_sound_enabled,
   if req.lightsEnabled.isSome then req.lightsEnabled
    else settings.default_lights_enabled,
   if req.sensorThreshold.isSome then req.sensorThreshold
    else settings.sensor_threshold⟩

/-- The tail of the global branch of `updateRemoteConfig`: reject a wifi
update without a device_id (nothing is stored), otherwise succeed. -/
def wifiGlobalCheck (cmds : CommandStore) (settings : SystemSettings)
    (req : RemoteConfigReq) : RemoteConfigOut :=
  if strTruthy req.wifiSSID || strTruthy req.wifiPassword then
    ⟨cmds, settings, [],
     ⟨400, false,
      "Provide device_id to perform wifi update on a specific device",
      none⟩⟩
  else
    ⟨cmds, settings, [], ⟨200, true, "Remote config updated", none⟩⟩

/-- `updateRemoteConfig` (controllers.js).  With a truthy `device_id`, up
to two `device_commands` inserts (control then wifi_update), with ttl
`expires_hours || 1` hours for control and `expires_hours || 24` for
wifi_update; otherwise a best-effort `system_settings` update — whose
failure returns success early — followed by a 400 rejection of any global
wifi update.  `qControl`, `qWifi`, `qSettings` are the outcomes of the
three possible queries. -/
def updateRemoteConfig (cmds : CommandStore) (settings : SystemSettings)
    (req : RemoteConfigReq) (now : Rat)
    (qControl qWifi qSettings : QueryOutcome) : RemoteConfigOut :=
  if strTruthy req.device_id then
    if req.soundEnabled.isSome || req.lightsEnabled.isSome then
      match qControl with
      | .ok =>
        let ctrl : Command :=
          ⟨cmds.nextId, req.device_id.getD "", "control",
           .control req.soundEnabled req.lightsEnabled,
           now + ratOr req.expires_hours 1 * 3600000, "pending"⟩
        enqueueWifi ⟨cmds.commands ++ [ctrl], cmds.nextId + 1⟩ settings req
          now qWifi [("control", natTruthy (some cmds.nextId))]
      | .errRes =>
        ⟨cmds, settings, [],
         ⟨500, false, "Failed to enqueue control command", none⟩⟩
      | .exn =>
        ⟨cmds, settings, [],
         ⟨500, false, "Failed to update remote config", none⟩⟩
    else
      enqueueWifi cmds settings req now qWifi []
  else
    if req.soundEnabled.isSome || req.lightsEnabled.isSome ||
        req.sensorThreshold.isSome then
      match qSettings with
      | .ok => wifiGlobalCheck cmds (applySystemSettings settings req) req
      | _ =>
        ⟨cmds, settings, [],
         ⟨200, true,
          "Accepted but system settings update may not be persisted (check schema)",
          none⟩⟩
    else
      wifiGlobalCheck cmds settings req

/-- Lazy expiry predicate: a command is expired when `now > expires_at`. -/
def commandExpired (now : Rat) (c : Command) : Bool :=
  decide (now > c.expires_at)

/-- Modelled from the spec: the device poll endpoint
(`GET /device/commands?device_id=X`) is not among the sources (only the
ESP32 client that calls it is); per the spec it returns the pending,
non-expired commands belonging to the device, expiry being evaluated
lazily at read time. -/
def poll (cmds : List Command) (deviceId : String) (now : Rat) :
    List Command :=
  cmds.filter (fun c =>
    decide (c.device_id = deviceId) && decide (c.status = "pending") &&
      !commandExpired now c)

/-! ## Virtual fences -/

/-- Request body of the fence-creation endpoint. -/
structure FenceReq where
  name : Option String := none
  description : Option String := none
  center_latitude : Option Rat := none
  center_longitude : Option Rat := none
  radius_meters : Option Rat := none
  fence_type : Option String := none
  is_active : Option Bool := none
deriving DecidableEq

/-- A row of the `virtual_fences` table as inserted by the handler. -/
structure FenceRow where
  farm_id : Int
  name : String
  description : Option String
  center_latitude : Rat
  center_longitude : Rat
  radius_meters : Rat
  fence_type : String
  is_active : Bool
  created_by : Int
deriving DecidableEq

/-- `createVirtualFence` (controllers.js): truthiness-based required-field
check (`!name || !center_latitude || !center_longitude || !radius_meters`),
then the range checks on latitude, longitude and radius, then the insert
(`farm_id` and `created_by` are the demo constants 1; `fence_type`
defaults to custom; `is_active` is `is_active !== false`). -/
def createVirtualFence (fences : List FenceRow) (nextId : Nat)
    (req : FenceReq) (q : QueryOutcome) : List FenceRow × Resp :=
  if !(strTruthy req.name && ratTruthy req.center_latitude &&
       ratTruthy req.center_longitude && ratTruthy req.radius_meters) then
    (fences, ⟨400, false, "Name, coordinates, and radius are required", none⟩)
  else
    let lat := jsNum req.center_latitude
    let lon := jsNum req.center_longitude
    let rad := jsNum req.radius_meters
    if lat < -90 ∨ lat > 90 then
      (fences, ⟨400, false, "Latitude must be between -90 and 90", none⟩)
    else if lon < -180 ∨ lon > 180 then
      (fences, ⟨400, false, "Longitude must be between -180 and 180", none⟩)
    else if rad < 50 ∨ rad > 10000 then
      (fences,
       ⟨400, false, "Radius must be between 50 and 10000 meters", none⟩)
    else
      match q with
      | .ok =>
        (fences ++
          [⟨1, req.name.getD "", strOrNull req.description, lat, lon, rad,
            (if strTruthy req.fence_type then req.fence_type.getD ""
             else "custom"),
            decide (req.is_active ≠ some false), 1⟩],
         ⟨201, true, "Virtual fence created successfully", some nextId⟩)
      | _ => (fences, ⟨500, false, "Internal server error", none⟩)

/-! ## Device alerts -/

/-- The free-form alert payload (query or body) of the alert endpoint. -/
structure AlertPayload where
  farm_id : Option Int := none
  animal_id : Option Int := none
  collar_id : Option Int := none
  fence_id : Option Int := none
  alert_type : Option String := none
  alert : Option String := none
  title : Option String := none
  severity : Option String := none
  message : Option String := none
  alert_data : Option String := none
  distance : Option String := none
  motion : Option String := none
  lat : Option Rat := none
  location_latitude : Option Rat := none
  lon : Option Rat := none
  location_longitude : Option Rat := none
  triggered_at : Option Nat := none
  status : Option String := none
  auto_generated : Option Int := none
deriving DecidableEq

/-- A row of the `alerts` table as inserted by `handleAlert`. -/
structure AlertRow where
  farm_id : Int
  animal_id : Option Int
  collar_id : Option Int
  fence_id : Option Int
  alert_type : String
  severity : String
  title : String
  message : String
  alert_data : Option String
  location_latitude : Option Rat
  location_longitude : Option Rat
  triggered_at : Option Nat
  status : String
  auto_generated : Int
deriving DecidableEq

/-- `payload.x ? Number(payload.x) : null` for an id field. -/
def intOrNull : Option Int → Option Int
  | none => none
  | some n => if n = 0 then none else some n

/-- `payload.farm_id ? Number(payload.farm_id) : 1`. -/
def farmIdOf (o : Option Int) : Int :=
  match o with
  | none => 1
  | some n => if n = 0 then 1 else n

/-- `(payload.lat || payload.location_latitude) ? Number(...) : null`. -/
def locationCoord (a b : Option Rat) : Option Rat :=
  if ratTruthy a then a else if ratTruthy b then b else none

/-- `payload.alert_type ? String(payload.alert_type) : 'device'` (the
ternary on `payload.alert` yields 'device' in both arms). -/
def rawAlertType (p : AlertPayload) : String :=
  if strTruthy p.alert_type then p.alert_type.getD "" else "device"

/-- `payload.severity ? String(payload.severity) : 'medium'`. -/
def rawSeverity (p : AlertPayload) : String :=
  if strTruthy p.severity then p.severity.getD "" else "medium"

/-- `payload.alert || payload.title || 'Device Alert'`. -/
def rawTitle (p : AlertPayload) : String :=
  if strTruthy p.alert then p.alert.getD ""
  else if strTruthy p.title then p.title.getD "" else "Device Alert"

/-- `payload.message || ("distance=" + (payload.distance || "") +
" motion=" + (payload.motion || ""))`. -/
def rawMessage (p : AlertPayload) : String :=
  if strTruthy p.message then p.message.getD ""
  else "distance=" ++ p.distance.getD "" ++ " motion=" ++ p.motion.getD ""

/-- `raw.length > MAX ? raw.substring(0, MAX) : raw`. -/
def truncateTo (n : Nat) (s : String) : String :=
  if s.length > n then ⟨s.data.take n⟩ else s

/-- The alert row built by `handleAlert`; alert_type, severity and title
are capped at the column sizes 100, 32 and 255, message is TEXT (kept). -/
def alertRowOf (p : AlertPayload) : AlertRow :=
  ⟨farmIdOf p.farm_id, intOrNull p.animal_id, intOrNull p.collar_id,
   intOrNull p.fence_id,
   truncateTo 100 (rawAlertType p), truncateTo 32 (rawSeverity p),
   truncateTo 255 (rawTitle p), rawMessage p, strOrNull p.alert_data,
   locationCoord p.lat p.location_latitude,
   locationCoord p.lon p.location_longitude,
   natTruthy p.triggered_at,
   (if strTruthy p.status then p.status.getD "" else "active"),
   p.auto_generated.getD 1⟩

/-- `handleAlert`: insert the mapped alert row; if SMTP is configured,
attempt the notification email inside its own try/catch (a failure is
logged and swallowed); respond 201 with the insert id.  The middle output
component is the list of emails actually delivered. -/
def handleAlert (alerts : List AlertRow) (nextId : Nat) (p : AlertPayload)
    (q : QueryOutcome) (smtpConfigured emailFails : Bool) :
    List AlertRow × List String × Resp :=
  match q with
  | .exn => (alerts, [], ⟨500, false, "Internal server error", none⟩)
  | .errRes => (alerts, [], ⟨500, false, "Failed to insert alert", none⟩)
  | .ok =>
    let row := alertRowOf p
    let emails :=
      if smtpConfigured then
        if emailFails then [] else ["Cattle Farm Alert: " ++ row.title]
      else []
    (alerts ++ [row], emails,
     ⟨201, true, "Alert recorded", natTruthy (some nextId)⟩)

/-! ### Lemmas about the current-table upserts -/

theorem key_updateCurrentFields (row c : CurrentRecord) :
    (updateCurrentFields row c).key = c.key := by
  unfold updateCurrentFields
  split <;> rfl

theorem key_updateCurrentRawFields (row c : CurrentRecord) :
    (updateCurrentRawFields row c).key = c.key := by
  unfold updateCurrentRawFields
  split <;> rfl

theorem countP_map_updateCurrentFields (row : CurrentRecord)
    (k : Option Int × Option Int) (cs : List CurrentRecord) :
    (cs.map (updateCurrentFields row)).countP (fun c => decide (c.key = k)) =
      cs.countP (fun c => decide (c.key = k)) := by
  induction cs with
  | nil => rfl
  | cons a t ih =>
    simp only [List.map_cons, List.countP_cons, ih, key_updateCurrentFields]

theorem countP_map_updateCurrentRawFields (row : CurrentRecord)
    (k : Option Int × Option Int) (cs : List CurrentRecord) :
    (cs.map (updateCurrentRawFields row)).countP (fun c => decide (c.key = k)) =
      cs.countP (fun c => decide (c.key = k)) := by
  induction cs with
  | nil => rfl
  | cons a t ih =>
    simp only [List.map_cons, List.countP_cons, ih, key_updateCurrentRawFields]

theorem upsertCurrentFull_countP (cs : List CurrentRecord) (row : CurrentRecord)
    (h : cs.countP (fun c => decide (c.key = row.key)) ≤ 1) :
    (upsertCurrentFull cs row).countP (fun c => decide (c.key = row.key)) = 1 := by
  unfold upsertCurrentFull
  split
  next hany =>
    rw [countP_map_updateCurrentFields]
    have hpos : 0 < cs.countP (fun c => decide (c.key = row.key)) := by
      rw [List.countP_pos_iff]
      simpa using List.any_eq_true.mp hany
    omega
  next hany =>
    have h0 : cs.countP (fun c => decide (c.key = row.key)) = 0 := by
      rw [List.countP_eq_zero]
      intro a ha hk
      exact hany (List.any_eq_true.mpr ⟨a, ha, hk⟩)
    rw [List.countP_append, h0]
    simp

theorem upsertCurrentRaw_countP (cs : List CurrentRecord) (row : CurrentRecord)
    (h : cs.countP (fun c => decide (c.key = row.key)) ≤ 1) :
    (upsertCurrentRaw cs row).countP (fun c => decide (c.key = row.key)) = 1 := by
  unfold upsertCurrentRaw
  split
  next hany =>
    rw [countP_map_updateCurrentRawFields]
    have hpos : 0 < cs.countP (fun c => decide (c.key = row.key)) := by
      rw [List.countP_pos_iff]
      simpa using List.any_eq_true.mp hany
    omega
  next hany =>
    have h0 : cs.countP (fun c => decide (c.key = row.key)) = 0 := by
      rw [List.countP_eq_zero]
      intro a ha hk
      exact hany (List.any_eq_true.mpr ⟨a, ha, hk⟩)
    rw [List.countP_append, h0]
    simp

theorem upsertCurrentFull_fields (cs : List CurrentRecord) (row c : CurrentRecord)
    (hc : c ∈ upsertCurrentFull cs row) (hk : c.key = row.key) :
    c.latitude = row.latitude ∧ c.longitude = row.longitude ∧
    c.recorded_at = row.recorded_at ∧ c.battery_level = row.battery_level ∧
    c.signal_quality = row.signal_quality ∧
    c.temperature_celsius = row.temperature_celsius := by
  unfold upsertCurrentFull at hc
  split at hc
  next hany =>
    obtain ⟨a, _, rfl⟩ := List.mem_map.mp hc
    rw [key_updateCurrentFields] at hk
    simp [updateCurrentFields, hk]
  next hany =>
    rcases List.mem_append.mp hc with h1 | h1
    · exact absurd (List.any_eq_true.mpr ⟨c, h1, by simpa using hk⟩) hany
    · simp only [List.mem_singleton] at h1
      subst h1
      simp

theorem upsertCurrentRaw_fields (cs : List CurrentRecord) (row c : CurrentRecord)
    (hc : c ∈ upsertCurrentRaw cs row) (hk : c.key = row.key) :
    c.latitude = row.latitude ∧ c.longitude = row.longitude ∧
    c.recorded_at = row.recorded_at := by
  unfold upsertCurrentRaw at hc
  split at hc
  next hany =>
    obtain ⟨a, _, rfl⟩ := List.mem_map.mp hc
    rw [key_updateCurrentRawFields] at hk
    simp [updateCurrentRawFields, hk]
  next hany =>
    rcases List.mem_append.mp hc with h1 | h1
    · exact absurd (List.any_eq_true.mpr ⟨c, h1, by simpa using hk⟩) hany
    · simp only [List.mem_singleton] at h1
      subst h1
      simp

theorem upsertCurrentFull_mem_overwrite (cs : List CurrentRecord)
    (row c : CurrentRecord) (hc : c ∈ cs) (hk : c.key = row.key) :
    ({ c with latitude := row.latitude, longitude := row.longitude,
              recorded_at := row.recorded_at,
              battery_level := row.battery_level,
              signal_quality := row.signal_quality,
              temperature_celsius := row.temperature_celsius } :
        CurrentRecord) ∈ upsertCurrentFull cs row := by
  have hany : cs.any (fun c => decide (c.key = row.key)) = true :=
    List.any_eq_true.mpr ⟨c, hc, by simpa using hk⟩
  unfold upsertCurrentFull
  rw [if_pos hany]
  exact List.mem_map.mpr ⟨c, hc, by simp [updateCurrentFields, hk]⟩

theorem filter_map_updateCurrentFields (row : CurrentRecord)
    (cs : List CurrentRecord) :
    (cs.map (updateCurrentFields row)).filter
        (fun c => !decide (c.key = row.key)) =
      cs.filter (fun c => !decide (c.key = row.key)) := by
  induction cs with
  | nil => rfl
  | cons a t ih =>
    by_cases hk : a.key = row.key
    · simp only [List.map_cons, List.filter_cons, key_updateCurrentFields, hk]
      simpa using ih
    · have ha : updateCurrentFields row a = a := by
        simp [updateCurrentFields, hk]
      simp only [List.map_cons, List.filter_cons, ha]
      simp only [hk, decide_False, Bool.not_false, if_true]
      rw [ih]

theorem filter_map_updateCurrentRawFields (row : CurrentRecord)
    (cs : List CurrentRecord) :
    (cs.map (updateCurrentRawFields row)).filter
        (fun c => !decide (c.key = row.key)) =
      cs.filter (fun c => !decide (c.key = row.key)) := by
  induction cs with
  | nil => rfl
  | cons a t ih =>
    by_cases hk : a.key = row.key
    · simp only [List.map_cons, List.filter_cons, key_updateCurrentRawFields, hk]
      simpa using ih
    · have ha : updateCurrentRawFields row a = a := by
        simp [updateCurrentRawFields, hk]
      simp only [List.map_cons, List.filter_cons, ha]
      simp only [hk, decide_False, Bool.not_false, if_true]
      rw [ih]

theorem upsertCurrentFull_filter_ne (cs : List CurrentRecord)
    (row : CurrentRecord) :
    (upsertCurrentFull cs row).filter (fun c => !decide (c.key = row.key)) =
      cs.filter (fun c => !decide (c.key = row.key)) := by
  unfold upsertCurrentFull
  split
  · exact filter_map_updateCurrentFields row cs
  · simp [List.filter_append]

theorem upsertCurrentRaw_filter_ne (cs : List CurrentRecord)
    (row : CurrentRecord) :
    (upsertCurrentRaw cs row).filter (fun c => !decide (c.key = row.key)) =
      cs.filter (fun c => !decide (c.key = row.key)) := by
  unfold upsertCurrentRaw
  split
  · exact filter_map_updateCurrentRawFields row cs
  · simp [List.filter_append]

theorem upsertCurrentFull_mem_of_ne (cs : List CurrentRecord)
    (row c : CurrentRecord) (hc : c ∈ cs) (hk : c.key ≠ row.key) :
    c ∈ upsertCurrentFull cs row := by
  have h1 : c ∈ cs.filter (fun c => !decide (c.key = row.key)) :=
    List.mem_filter.mpr ⟨hc, by simpa using hk⟩
  rw [← upsertCurrentFull_filter_ne] at h1
  exact (List.mem_filter.mp h1).1

theorem updateCurrentFields_idem (row c : CurrentRecord) :
    updateCurrentFields row (updateCurrentFields row c) =
      updateCurrentFields row c := by
  by_cases hk : c.key = row.key
  · have h1 : updateCurrentFields row c =
        CurrentRecord.mk c.animal_id c.collar_id row.latitude row.longitude
          row.recorded_at row.battery_level row.signal_quality
          row.temperature_celsius := by
      simp [updateCurrentFields, hk]
    rw [h1]
    have hk2 : (CurrentRecord.mk c.animal_id c.collar_id row.latitude
        row.longitude row.recorded_at row.battery_level row.signal_quality
        row.temperature_celsius).key = row.key := hk
    rw [updateCurrentFields, if_pos hk2]
  · have h1 : updateCurrentFields row c = c := by
      simp [updateCurrentFields, hk]
    rw [h1]
    exact h1

theorem map_updateCurrentFields_no_match (row : CurrentRecord)
    (cs : List CurrentRecord)
    (h : ∀ c ∈ cs, c.key ≠ row.key) :
    cs.map (updateCurrentFields row) = cs := by
  induction cs with
  | nil => rfl
  | cons a t ih =>
    have ha : updateCurrentFields row a = a := by
      simp [updateCurrentFields, h a (List.mem_cons_self a t)]
    simp only [List.map_cons, ha]
    rw [ih (fun c hc => h c (List.mem_cons_of_mem a hc))]

theorem updateCurrentFields_self (row : CurrentRecord) :
    updateCurrentFields row row = row := by
  simp [updateCurrentFields]

theorem upsertCurrentFull_idem (cs : List CurrentRecord) (row : CurrentRecord) :
    upsertCurrentFull (upsertCurrentFull cs row) row =
      upsertCurrentFull cs row := by
  by_cases hany : cs.any (fun c => decide (c.key = row.key)) = true
  · have h1 : upsertCurrentFull cs row = cs.map (updateCurrentFields row) := by
      simp [upsertCurrentFull, hany]
    rw [h1]
    have hany2 : (cs.map (updateCurrentFields row)).any
        (fun c => decide (c.key = row.key)) = true := by
      rw [List.any_map]
      simpa [Function.comp, key_updateCurrentFields] using hany
    rw [upsertCurrentFull, if_pos hany2, List.map_map]
    exact List.map_congr_left (fun a _ => updateCurrentFields_idem row a)
  · have h1 : upsertCurrentFull cs row = cs ++ [row] := by
      simp [upsertCurrentFull, hany]
    rw [h1, upsertCurrentFull]
    have hany2 : ((cs ++ [row]).any (fun c => decide (c.key = row.key))) = true := by
      simp [List.any_append]
    rw [if_pos hany2, List.map_append]
    have hno : ∀ c ∈ cs, c.key ≠ row.key := by
      intro c hc hk
      exact hany (List.any_eq_true.mpr ⟨c, hc, by simpa using hk⟩)
    rw [map_updateCurrentFields_no_match row cs hno]
    simp [updateCurrentFields_self]

/-! ### Lemmas about the history correction -/

theorem overwriteLocationRow_id (r : LocationReport) (now uid : Nat)
    (h : HistoryRecord) : (overwriteLocationRow r now uid h).id = h.id := by
  unfold overwriteLocationRow
  split <;> rfl

theorem countP_map_overwriteLocationRow (r : LocationReport) (now uid : Nat)
    (cs : List HistoryRecord) (k : Nat) :
    (cs.map (overwriteLocationRow r now uid)).countP
        (fun h => decide (h.id = k)) =
      cs.countP (fun h => decide (h.id = k)) := by
  induction cs with
  | nil => rfl
  | cons a t ih =>
    simp only [List.map_cons, List.countP_cons, ih, overwriteLocationRow_id]

theorem map_overwriteLocationRow_no_match (r : LocationReport) (now uid : Nat)
    (cs : List HistoryRecord) (h : ∀ x ∈ cs, x.id ≠ uid) :
    cs.map (overwriteLocationRow r now uid) = cs := by
  induction cs with
  | nil => rfl
  | cons a t ih =>
    have ha : overwriteLocationRow r now uid a = a := by
      simp [overwriteLocationRow, h a (List.mem_cons_self a t)]
    simp only [List.map_cons, ha]
    rw [ih (fun x hx => h x (List.mem_cons_of_mem a hx))]

theorem overwriteLocationRow_idem (r : LocationReport) (now uid : Nat)
    (h : HistoryRecord) :
    overwriteLocationRow r now uid (overwriteLocationRow r now uid h) =
      overwriteLocationRow r now uid h := by
  by_cases hid : h.id = uid
  · simp [overwriteLocationRow, hid]
  · simp [overwriteLocationRow, hid]

theorem mem_map_overwriteLocationRow_value (r : LocationReport) (now uid : Nat)
    (cs : List HistoryRecord) (x : HistoryRecord)
    (hx : x ∈ cs.map (overwriteLocationRow r now uid)) (hid : x.id = uid) :
    x = { id := uid, animal_id := r.animal_id, collar_id := r.collar_id,
          latitude := jsNum r.latitude, longitude := jsNum r.longitude,
          altitude_meters := r.altitude_meters,
          accuracy_meters := r.accuracy_meters, speed_kmh := r.speed_kmh,
          heading_degrees := r.heading_degrees,
          recorded_at := r.recorded_at.getD now,
          battery_level := r.battery_level,
          signal_quality := r.signal_quality,
          temperature_celsius := r.temperature_celsius } := by
  obtain ⟨a, _, rfl⟩ := List.mem_map.mp hx
  rw [overwriteLocationRow_id] at hid
  simp [overwriteLocationRow, hid]

/-! ### Characterizations of the ingest branches -/

theorem ingest_correction_eq (db : Store) (ev : List CurrentRecord)
    (r : LocationReport) (now uid : Nat) (hup : jsUpdateId r = some uid) :
    ingest db ev r now .ok .ok false =
      ⟨⟨db.animal_locations.map (overwriteLocationRow r now uid),
        upsertCurrentFull db.current_locations (currRowOf r now), db.nextId⟩,
       ev ++ [currRowOf r now],
       ⟨200, true, "GPS record updated", some uid⟩⟩ := by
  simp [ingest, hup]

theorem ingest_attrib_eq (db : Store) (ev : List CurrentRecord)
    (r : LocationReport) (now : Nat) (hup : jsUpdateId r = none)
    (hlat : r.latitude.isNone = false) (hlon : r.longitude.isNone = false)
    (hent : (intTruthy r.animal_id || intTruthy r.collar_id) = true) :
    ingest db ev r now .ok .ok false =
      ⟨⟨db.animal_locations ++ [histRowOf r db.nextId now],
        upsertCurrentFull db.current_locations (currRowOf r now),
        db.nextId + 1⟩,
       ev ++ [currRowOf r now],
       ⟨200, true, "Animal location saved", natTruthy (some db.nextId)⟩⟩ := by
  simp [ingest, hup, hlat, hlon, hent]

theorem ingest_attrib_histFail_eq (db : Store) (ev : List CurrentRecord)
    (r : LocationReport) (now : Nat) (q2 : QueryOutcome) (b : Bool)
    (hup : jsUpdateId r = none)
    (hlat : r.latitude.isNone = false) (hlon : r.longitude.isNone = false)
    (hent : (intTruthy r.animal_id || intTruthy r.collar_id) = true) :
    ingest db ev r now .errRes q2 b =
      ⟨db, ev, ⟨500, false, "Database error", none⟩⟩ := by
  simp [ingest, hup, hlat, hlon, hent]

theorem ingest_attrib_upsertExn_eq (db : Store) (ev : List CurrentRecord)
    (r : LocationReport) (now : Nat) (b : Bool) (hup : jsUpdateId r = none)
    (hlat : r.latitude.isNone = false) (hlon : r.longitude.isNone = false)
    (hent : (intTruthy r.animal_id || intTruthy r.collar_id) = true) :
    ingest db ev r now .ok .exn b =
      ⟨⟨db.animal_locations ++ [histRowOf r db.nextId now],
        db.current_locations, db.nextId + 1⟩,
       ev,
       ⟨200, true, "Animal location saved", natTruthy (some db.nextId)⟩⟩ := by
  simp [ingest, hup, hlat, hlon, hent]

theorem ingest_attrib_upsertErrRes_eq (db : Store) (ev : List CurrentRecord)
    (r : LocationReport) (now : Nat) (hup : jsUpdateId r = none)
    (hlat : r.latitude.isNone = false) (hlon : r.longitude.isNone = false)
    (hent : (intTruthy r.animal_id || intTruthy r.collar_id) = true) :
    ingest db ev r now .ok .errRes false =
      ⟨⟨db.animal_locations ++ [histRowOf r db.nextId now],
        db.current_locations, db.nextId + 1⟩,
       ev ++ [currRowOf r now],
       ⟨200, true, "Animal location saved", natTruthy (some db.nextId)⟩⟩ := by
  simp [ingest, hup, hlat, hlon, hent]

theorem ingest_raw_eq (db : Store) (ev : List CurrentRecord)
    (r : LocationReport) (now : Nat) (q2 : QueryOutcome)
    (hup : jsUpdateId r = none)
    (hlat : r.latitude.isNone = false) (hlon : r.longitude.isNone = false)
    (hent : (intTruthy r.animal_id || intTruthy r.collar_id) = false) :
    ingest db ev r now .ok q2 false =
      ⟨⟨db.animal_locations,
        upsertCurrentRaw db.current_locations (sentinelRowOf r now),
        db.nextId⟩,
       ev ++ [sentinelRowOf r now],
       ⟨200, true, "GPS coordinates saved (updated current location)",
        none⟩⟩ := by
  simp [ingest, hup, hlat, hlon, hent]

/-! ## Claims about the ingestion pipeline -/

/-- C2: for every valid entity-attributed LocationReport without `update_id`,
`ingest` appends exactly one new HistoryRecord, leaves exactly one
CurrentRecord keyed by that entity with the report's coordinates,
overwrites only the lat/lon/recordedAt/battery/signal/temperature fields of
an existing CurrentRecord, and leaves rows with other keys untouched. -/
theorem ingest_entity_attributed_dual_write
    (db : Store) (ev : List CurrentRecord) (r : LocationReport) (now : Nat)
    (la lo : Rat)
    (hup : jsUpdateId r = none)
    (hla : r.latitude = some la) (hlo : r.longitude = some lo)
    (hent : (intTruthy r.animal_id || intTruthy r.collar_id) = true)
    (hinv : db.current_locations.countP
        (fun c => decide (c.key = (r.animal_id, r.collar_id))) ≤ 1) :
    (ingest db ev r now .ok .ok false).resp.success = true ∧
    (ingest db ev r now .ok .ok false).store.animal_locations =
      db.animal_locations ++
        [⟨db.nextId, r.animal_id, r.collar_id, la, lo, r.altitude_meters,
          r.accuracy_meters, r.speed_kmh, r.heading_degrees,
          r.recorded_at.getD now, r.battery_level, r.signal_quality,
          r.temperature_celsius⟩] ∧
    (ingest db ev r now .ok .ok false).store.current_locations.countP
        (fun c => decide (c.key = (r.animal_id, r.collar_id))) = 1 ∧
    (∀ c ∈ (ingest db ev r now .ok .ok false).store.current_locations,
        c.key = (r.animal_id, r.collar_id) →
          c.latitude = la ∧ c.longitude = lo) ∧
    (∀ c ∈ db.current_locations, c.key = (r.animal_id, r.collar_id) →
        ({ c with latitude := la, longitude := lo,
                  recorded_at := r.recorded_at.getD now,
                  battery_level := r.battery_level,
                  signal_quality := r.signal_quality,
                  temperature_celsius := r.temperature_celsius } :
            CurrentRecord) ∈
          (ingest db ev r now .ok .ok false).store.current_locations) ∧
    (∀ c ∈ db.current_locations, c.key ≠ (r.animal_id, r.collar_id) →
        c ∈ (ingest db ev r now .ok .ok false).store.current_locations) := by
  have hlat : r.latitude.isNone = false := by rw [hla]; rfl
  have hlon : r.longitude.isNone = false := by rw [hlo]; rfl
  have he := ingest_attrib_eq db ev r now hup hlat hlon hent
  rw [he]
  have hkey : (currRowOf r now).key = (r.animal_id, r.collar_id) := rfl
  refine ⟨rfl, ?_, ?_, ?_, ?_, ?_⟩
  · simp [histRowOf, jsNum, hla, hlo]
  · exact upsertCurrentFull_countP db.current_locations (currRowOf r now) hinv
  · intro c hc hk
    have h6 := upsertCurrentFull_fields db.current_locations (currRowOf r now)
      c hc (by rw [hk]; rfl)
    refine ⟨?_, ?_⟩
    · rw [h6.1]; simp [currRowOf, jsNum, hla]
    · rw [h6.2.1]; simp [currRowOf, jsNum, hlo]
  · intro c hc hk
    have hm := upsertCurrentFull_mem_overwrite db.current_locations
      (currRowOf r now) c hc (by rw [hk]; rfl)
    simpa [currRowOf, jsNum, hla, hlo] using hm
  · intro c hc hk
    exact upsertCurrentFull_mem_of_ne db.current_locations (currRowOf r now)
      c hc (by rw [hkey]; exact hk)

/-- C2 witness: a concrete entity-attributed report on an empty store. -/
theorem ingest_entity_attributed_dual_write_witness :
    (ingest ⟨[], [], 1⟩ []
        { latitude := some 1, longitude := some 2, animal_id := some 7 }
        50 .ok .ok false).resp.success = true ∧
    (ingest ⟨[], [], 1⟩ []
        { latitude := some 1, longitude := some 2, animal_id := some 7 }
        50 .ok .ok false).store.current_locations.countP
      (fun c => decide (c.key = (some 7, none))) = 1 := by
  have h := ingest_entity_attributed_dual_write ⟨[], [], 1⟩ []
    { latitude := some 1, longitude := some 2, animal_id := some 7 }
    50 1 2 (by decide) rfl rfl (by decide) (by decide)
  exact ⟨h.1, h.2.2.1⟩

/-- C3: a LocationReport with coordinates but no entity identity and no
`update_id` writes no HistoryRecord and upserts only the sentinel
CurrentRecord (the reserved `animal_id = 0` row) with the report's
coordinates and a recorded-at timestamp. -/
theorem ingest_raw_sentinel_only
    (db : Store) (ev : List CurrentRecord) (r : LocationReport) (now : Nat)
    (la lo : Rat)
    (hup : jsUpdateId r = none)
    (hla : r.latitude = some la) (hlo : r.longitude = some lo)
    (hent : (intTruthy r.animal_id || intTruthy r.collar_id) = false)
    (hinv : db.current_locations.countP
        (fun c => decide (c.key = ((some 0 : Option Int),
          (none : Option Int)))) ≤ 1) :
    (ingest db ev r now .ok .ok false).store.animal_locations =
      db.animal_locations ∧
    (ingest db ev r now .ok .ok false).resp.success = true ∧
    (ingest db ev r now .ok .ok false).store.current_locations.countP
        (fun c => decide (c.key = ((some 0 : Option Int),
          (none : Option Int)))) = 1 ∧
    (∀ c ∈ (ingest db ev r now .ok .ok false).store.current_locations,
        c.key = ((some 0 : Option Int), (none : Option Int)) →
          c.latitude = la ∧ c.longitude = lo ∧ c.recorded_at = now) ∧
    (ingest db ev r now .ok .ok false).store.current_locations.filter
        (fun c => !decide (c.key = ((some 0 : Option Int),
          (none : Option Int)))) =
      db.current_locations.filter
        (fun c => !decide (c.key = ((some 0 : Option Int),
          (none : Option Int)))) := by
  have hlat : r.latitude.isNone = false := by rw [hla]; rfl
  have hlon : r.longitude.isNone = false := by rw [hlo]; rfl
  have he := ingest_raw_eq db ev r now .ok hup hlat hlon hent
  rw [he]
  refine ⟨rfl, rfl, ?_, ?_, ?_⟩
  · exact upsertCurrentRaw_countP db.current_locations (sentinelRowOf r now)
      hinv
  · intro c hc hk
    have h3 := upsertCurrentRaw_fields db.current_locations
      (sentinelRowOf r now) c hc (by rw [hk]; rfl)
    refine ⟨?_, ?_, ?_⟩
    · rw [h3.1]; simp [sentinelRowOf, jsNum, hla]
    · rw [h3.2.1]; simp [sentinelRowOf, jsNum, hlo]
    · rw [h3.2.2]; rfl
  · exact upsertCurrentRaw_filter_ne db.current_locations (sentinelRowOf r now)

/-- C3 witness: a concrete unattributed report next to an attributed row. -/
theorem ingest_raw_sentinel_only_witness :
    (ingest ⟨[], [⟨some 7, none, 3, 4, 10, none, none, none⟩], 1⟩ []
        { latitude := some 1, longitude := some 2 }
        50 .ok .ok false).store.animal_locations = [] ∧
    (ingest ⟨[], [⟨some 7, none, 3, 4, 10, none, none, none⟩], 1⟩ []
        { latitude := some 1, longitude := some 2 }
        50 .ok .ok false).store.current_locations.countP
      (fun c => decide (c.key = ((some 0 : Option Int),
        (none : Option Int)))) = 1 := by
  have h := ingest_raw_sentinel_only
    ⟨[], [⟨some 7, none, 3, 4, 10, none, none, none⟩], 1⟩ []
    { latitude := some 1, longitude := some 2 } 50 1 2
    (by decide) rfl rfl (by decide) (by decide)
  exact ⟨h.1, h.2.2.1⟩

/-- C4: re-ingesting the same correction (`update_id` with identical fields)
is idempotent: the second call leaves the store unchanged, the history table
keeps its length with the one matching row mutated in place, and the
CurrentRecord for the report's entity reflects the call's values; by
contrast an entity-attributed report without `update_id` appends a new
HistoryRecord on every call. -/
theorem ingest_correction_idempotent
    (db : Store) (r : LocationReport) (now uid : Nat) (la lo : Rat)
    (hup : jsUpdateId r = some uid)
    (hla : r.latitude = some la) (hlo : r.longitude = some lo)
    (hcnt : db.animal_locations.countP (fun h => decide (h.id = uid)) = 1)
    (hinv : db.current_locations.countP
        (fun c => decide (c.key = (r.animal_id, r.collar_id))) ≤ 1) :
    (ingest (ingest db [] r now .ok .ok false).store
        (ingest db [] r now .ok .ok false).events r now .ok .ok false).store =
      (ingest db [] r now .ok .ok false).store ∧
    (ingest db [] r now .ok .ok false).store.animal_locations.length =
      db.animal_locations.length ∧
    (ingest db [] r now .ok .ok false).store.animal_locations.countP
        (fun h => decide (h.id = uid)) = 1 ∧
    (∀ h ∈ (ingest db [] r now .ok .ok false).store.animal_locations,
        h.id = uid →
          h = ⟨uid, r.animal_id, r.collar_id, la, lo, r.altitude_meters,
               r.accuracy_meters, r.speed_kmh, r.heading_degrees,
               r.recorded_at.getD now, r.battery_level, r.signal_quality,
               r.temperature_celsius⟩) ∧
    (ingest db [] r now .ok .ok false).store.current_locations.countP
        (fun c => decide (c.key = (r.animal_id, r.collar_id))) = 1 ∧
    (∀ c ∈ (ingest db [] r now .ok .ok false).store.current_locations,
        c.key = (r.animal_id, r.collar_id) →
          c.latitude = la ∧ c.longitude = lo) ∧
    (∀ r' : LocationReport, jsUpdateId r' = none →
        r'.latitude.isNone = false → r'.longitude.isNone = false →
        (intTruthy r'.animal_id || intTruthy r'.collar_id) = true →
        (ingest (ingest db [] r' now .ok .ok false).store [] r' now
            .ok .ok false).store.animal_locations.length =
          db.animal_locations.length + 2) := by
  have he1 := ingest_correction_eq db [] r now uid hup
  have he2 := ingest_correction_eq
    ⟨db.animal_locations.map (overwriteLocationRow r now uid),
     upsertCurrentFull db.current_locations (currRowOf r now), db.nextId⟩
    ([] ++ [currRowOf r now]) r now uid hup
  refine ⟨?_, ?_, ?_, ?_, ?_, ?_, ?_⟩
  · rw [he1]
    dsimp only
    rw [he2]
    dsimp only
    refine congrArg₂ (fun a c => Store.mk a c db.nextId) ?_ ?_
    · rw [List.map_map]
      exact List.map_congr_left (fun a _ => overwriteLocationRow_idem r now uid a)
    · exact upsertCurrentFull_idem db.current_locations (currRowOf r now)
  · rw [he1]
    dsimp only
    exact List.length_map db.animal_locations (overwriteLocationRow r now uid)
  · rw [he1]
    dsimp only
    rw [countP_map_overwriteLocationRow]
    exact hcnt
  · rw [he1]
    dsimp only
    intro h hmem hid
    have hv := mem_map_overwriteLocationRow_value r now uid
      db.animal_locations h hmem hid
    rw [hv]
    simp [jsNum, hla, hlo]
  · rw [he1]
    dsimp only
    exact upsertCurrentFull_countP db.current_locations (currRowOf r now) hinv
  · rw [he1]
    dsimp only
    intro c hc hk
    have h6 := upsertCurrentFull_fields db.current_locations (currRowOf r now)
      c hc (by rw [hk]; rfl)
    refine ⟨?_, ?_⟩
    · rw [h6.1]; simp [currRowOf, jsNum, hla]
    · rw [h6.2.1]; simp [currRowOf, jsNum, hlo]
  · intro r' hup' hlat' hlon' hent'
    have h1 := ingest_attrib_eq db [] r' now hup' hlat' hlon' hent'
    rw [h1]
    dsimp only
    have h2 := ingest_attrib_eq
      ⟨db.animal_locations ++ [histRowOf r' db.nextId now],
       upsertCurrentFull db.current_locations (currRowOf r' now),
       db.nextId + 1⟩ [] r' now hup' hlat' hlon' hent'
    rw [h2]
    simp

/-- C4 witness: correcting a one-row history twice with the same id. -/
theorem ingest_correction_idempotent_witness :
    (ingest
        (ingest ⟨[⟨5, some 7, none, 3, 4, none, none, none, none, 10, none,
                   none, none⟩], [], 6⟩ []
          { latitude := some 1, longitude := some 2, animal_id := some 7,
            update_id := some 5 } 50 .ok .ok false).store
        (ingest ⟨[⟨5, some 7, none, 3, 4, none, none, none, none, 10, none,
                   none, none⟩], [], 6⟩ []
          { latitude := some 1, longitude := some 2, animal_id := some 7,
            update_id := some 5 } 50 .ok .ok false).events
        { latitude := some 1, longitude := some 2, animal_id := some 7,
          update_id := some 5 } 50 .ok .ok false).store =
      (ingest ⟨[⟨5, some 7, none, 3, 4, none, none, none, none, 10, none,
                 none, none⟩], [], 6⟩ []
        { latitude := some 1, longitude := some 2, animal_id := some 7,
          update_id := some 5 } 50 .ok .ok false).store ∧
    (ingest ⟨[⟨5, some 7, none, 3, 4, none, none, none, none, 10, none,
               none, none⟩], [], 6⟩ []
      { latitude := some 1, longitude := some 2, animal_id := some 7,
        update_id := some 5 } 50 .ok .ok false).store.animal_locations.length
      = 1 := by
  have h := ingest_correction_idempotent
    ⟨[⟨5, some 7, none, 3, 4, none, none, none, none, 10, none, none, none⟩],
     [], 6⟩
    { latitude := some 1, longitude := some 2, animal_id := some 7,
      update_id := some 5 } 50 5 1 2 (by decide) rfl rfl (by decide) (by decide)
  exact ⟨h.1, h.2.1⟩

/-- C10: a correction whose `update_id` matches no history row still
succeeds echoing the supplied id, creates no HistoryRecord, upserts the
CurrentRecord for the supplied entity identity, and emits a live-update
event (the zero-rows-affected update is not a NotFoundError). -/
theorem ingest_correction_unmatched_id
    (db : Store) (ev : List CurrentRecord) (r : LocationReport)
    (now uid : Nat) (la lo : Rat)
    (hup : jsUpdateId r = some uid)
    (hla : r.latitude = some la) (hlo : r.longitude = some lo)
    (hmiss : ∀ h ∈ db.animal_locations, h.id ≠ uid)
    (hinv : db.current_locations.countP
        (fun c => decide (c.key = (r.animal_id, r.collar_id))) ≤ 1) :
    (ingest db ev r now .ok .ok false).resp =
      ⟨200, true, "GPS record updated", some uid⟩ ∧
    (ingest db ev r now .ok .ok false).store.animal_locations =
      db.animal_locations ∧
    (ingest db ev r now .ok .ok false).store.current_locations.countP
        (fun c => decide (c.key = (r.animal_id, r.collar_id))) = 1 ∧
    (∀ c ∈ (ingest db ev r now .ok .ok false).store.current_locations,
        c.key = (r.animal_id, r.collar_id) →
          c.latitude = la ∧ c.longitude = lo) ∧
    (ingest db ev r now .ok .ok false).events =
      ev ++ [⟨r.animal_id, r.collar_id, la, lo, r.recorded_at.getD now,
             r.battery_level, r.signal_quality, r.temperature_celsius⟩] := by
  rw [ingest_correction_eq db ev r now uid hup]
  refine ⟨rfl, ?_, ?_, ?_, ?_⟩
  · exact map_overwriteLocationRow_no_match r now uid db.animal_locations hmiss
  · exact upsertCurrentFull_countP db.current_locations (currRowOf r now) hinv
  · intro c hc hk
    have h6 := upsertCurrentFull_fields db.current_locations (currRowOf r now)
      c hc (by rw [hk]; rfl)
    refine ⟨?_, ?_⟩
    · rw [h6.1]; simp [currRowOf, jsNum, hla]
    · rw [h6.2.1]; simp [currRowOf, jsNum, hlo]
  · simp [currRowOf, jsNum, hla, hlo]

/-- C10 witness: a correction against an empty history table. -/
theorem ingest_correction_unmatched_id_witness :
    (ingest ⟨[], [], 1⟩ []
        { latitude := some 1, longitude := some 2, animal_id := some 7,
          update_id := some 9 } 50 .ok .ok false).resp =
      ⟨200, true, "GPS record updated", some 9⟩ ∧
    (ingest ⟨[], [], 1⟩ []
        { latitude := some 1, longitude := some 2, animal_id := some 7,
          update_id := some 9 } 50 .ok .ok false).store.animal_locations =
      [] := by
  have h := ingest_correction_unmatched_id ⟨[], [], 1⟩ []
    { latitude := some 1, longitude := some 2, animal_id := some 7,
      update_id := some 9 } 50 9 1 2 (by decide) rfl rfl
    (by intro h hmem; simp at hmem) (by decide)
  exact ⟨h.1, h.2.1⟩

/-- C1 counterexample: with a successful HistoryRecord insert and a
CurrentRecord upsert that fails by returning a result whose `success` flag
is false (the route ignores that result), the call still reports success
and the live event *is* published — the claim that the event publish is
skipped whenever the upsert fails is false at this input. -/
theorem ingest_upsert_errRes_publishes_cex :
    (ingest ⟨[], [], 1⟩ []
        { latitude := some 1, longitude := some 2, animal_id := some 7 }
        50 .ok .errRes false).resp.success = true ∧
    (ingest ⟨[], [], 1⟩ []
        { latitude := some 1, longitude := some 2, animal_id := some 7 }
        50 .ok .errRes false).store.current_locations = [] ∧
    (ingest ⟨[], [], 1⟩ []
        { latitude := some 1, longitude := some 2, animal_id := some 7 }
        50 .ok .errRes false).events =
      [⟨some 7, none, 1, 2, 50, none, none, none⟩] := by
  refine ⟨rfl, rfl, rfl⟩

/-- C1 (amended): for an entity-attributed report, a failed HistoryRecord
insert is fatal — 500 storage error, no upsert and no publish; given a
successful HistoryRecord insert, an upsert that throws is swallowed with
the publish skipped, while an upsert that merely reports failure through
its `success` flag is ignored and the publish still happens; in both
partial-failure cases the call reports success with the history row
durable. -/
theorem ingest_dual_write_failure_semantics
    (db : Store) (ev : List CurrentRecord) (r : LocationReport) (now : Nat)
    (hup : jsUpdateId r = none)
    (hlat : r.latitude.isNone = false) (hlon : r.longitude.isNone = false)
    (hent : (intTruthy r.animal_id || intTruthy r.collar_id) = true) :
    (∀ (q2 : QueryOutcome) (b : Bool), ingest db ev r now .errRes q2 b =
        ⟨db, ev, ⟨500, false, "Database error", none⟩⟩) ∧
    (∀ b : Bool, ingest db ev r now .ok .exn b =
        ⟨⟨db.animal_locations ++ [histRowOf r db.nextId now],
          db.current_locations, db.nextId + 1⟩, ev,
         ⟨200, true, "Animal location saved", natTruthy (some db.nextId)⟩⟩) ∧
    (ingest db ev r now .ok .errRes false =
        ⟨⟨db.animal_locations ++ [histRowOf r db.nextId now],
          db.current_locations, db.nextId + 1⟩,
         ev ++ [currRowOf r now],
         ⟨200, true, "Animal location saved",
          natTruthy (some db.nextId)⟩⟩) := by
  exact ⟨fun q2 b => ingest_attrib_histFail_eq db ev r now q2 b hup hlat hlon
      hent,
    fun b => ingest_attrib_upsertExn_eq db ev r now b hup hlat hlon hent,
    ingest_attrib_upsertErrRes_eq db ev r now hup hlat hlon hent⟩

/-- C1 witness: the three failure modes at a concrete report and store. -/
theorem ingest_dual_write_failure_semantics_witness :
    (ingest ⟨[], [], 1⟩ []
        { latitude := some 1, longitude := some 2, animal_id := some 7 }
        50 .errRes .ok false).resp =
      ⟨500, false, "Database error", none⟩ ∧
    (ingest ⟨[], [], 1⟩ []
        { latitude := some 1, longitude := some 2, animal_id := some 7 }
        50 .ok .exn false).events = [] := by
  have h := ingest_dual_write_failure_semantics ⟨[], [], 1⟩ []
    { latitude := some 1, longitude := some 2, animal_id := some 7 }
    50 (by decide) rfl rfl (by decide)
  refine ⟨?_, ?_⟩
  · rw [h.1 .ok false]
  · rw [h.2.1 false]

/-! ## Claims about the command queue and remote configuration -/

/-- C5: a command whose `expires_at` lies in the past at poll time is never
returned by `poll`, regardless of its stored status. -/
theorem poll_never_returns_expired
    (cmds : List Command) (deviceId : String) (now : Rat) (c : Command)
    (hexp : c.expires_at < now) :
    c ∉ poll cmds deviceId now := by
  intro hmem
  have h2 := (List.mem_filter.mp hmem).2
  simp only [commandExpired, Bool.and_eq_true, Bool.not_eq_true',
    decide_eq_true_eq, decide_eq_false_iff_not] at h2
  exact h2.2 hexp

/-- C5 witness: an expired pending command of the polled device. -/
theorem poll_never_returns_expired_witness :
    (5 : Rat) < 10 ∧
    (⟨1, "d", "control", .control none none, 5, "pending"⟩ : Command) ∉
      poll [⟨1, "d", "control", .control none none, 5, "pending"⟩] "d" 10 :=
  ⟨by norm_num,
   poll_never_returns_expired _ "d" 10 _ (by norm_num)⟩

/-- C6: with a device_id, control fields and wifi fields all present,
`updateRemoteConfig` inserts exactly two pending commands — a control
command expiring after `expires_hours || 1` hours and a wifi_update
command expiring after `expires_hours || 24` hours, so 1h and 24h when
`expires_hours` is absent. -/
theorem updateRemoteConfig_enqueues_both
    (cmds : CommandStore) (settings : SystemSettings)
    (req : RemoteConfigReq) (now : Rat) (q3 : QueryOutcome)
    (hdev : strTruthy req.device_id = true)
    (hctrl : (req.soundEnabled.isSome || req.lightsEnabled.isSome) = true)
    (hwifi : (strTruthy req.wifiSSID || strTruthy req.wifiPassword) = true) :
    updateRemoteConfig cmds settings req now .ok .ok q3 =
      ⟨⟨cmds.commands ++
          [⟨cmds.nextId, req.device_id.getD "", "control",
            .control req.soundEnabled req.lightsEnabled,
            now + ratOr req.expires_hours 1 * 3600000, "pending"⟩,
           ⟨cmds.nextId + 1, req.device_id.getD "", "wifi_update",
            .wifi (strOrNull req.wifiSSID) (strOrNull req.wifiPassword),
            now + ratOr req.expires_hours 24 * 3600000, "pending"⟩],
        cmds.nextId + 2⟩, settings,
       [("control", natTruthy (some cmds.nextId)),
        ("wifi_update", natTruthy (some (cmds.nextId + 1)))],
       ⟨200, true, "Commands enqueued", none⟩⟩ ∧
    (req.expires_hours = none →
      now + ratOr req.expires_hours 1 * 3600000 = now + 3600000 ∧
      now + ratOr req.expires_hours 24 * 3600000 = now + 86400000) := by
  constructor
  · simp [updateRemoteConfig, enqueueWifi, hdev, hctrl, hwifi]
  · intro he
    rw [he]
    norm_num [ratOr]

/-- C6 witness: a concrete request carrying both kinds of field. -/
theorem updateRemoteConfig_enqueues_both_witness :
    (updateRemoteConfig ⟨[], 1⟩ ⟨none, none, none⟩
        { soundEnabled := some true, wifiSSID := some "net",
          wifiPassword := some "pw", device_id := some "dev" }
        1000 .ok .ok .ok).cmdStore.commands =
      [⟨1, "dev", "control", .control (some true) none,
        1000 + ratOr none 1 * 3600000, "pending"⟩,
       ⟨2, "dev", "wifi_update", .wifi (some "net") (some "pw"),
        1000 + ratOr none 24 * 3600000, "pending"⟩] ∧
    ratOr (none : Option Rat) 1 = 1 ∧ ratOr (none : Option Rat) 24 = 24 := by
  have h := updateRemoteConfig_enqueues_both ⟨[], 1⟩ ⟨none, none, none⟩
    { soundEnabled := some true, wifiSSID := some "net",
      wifiPassword := some "pw", device_id := some "dev" }
    1000 .ok rfl rfl rfl
  refine ⟨?_, rfl, rfl⟩
  rw [h.1]
  rfl

/-! ### Helper lemmas for the remote-config invariants -/

theorem enqueueWifi_settings (cmds : CommandStore)
    (settings : SystemSettings) (req : RemoteConfigReq) (now : Rat)
    (q : QueryOutcome) (ins : List (String × Option Nat)) :
    (enqueueWifi cmds settings req now q ins).settings = settings := by
  unfold enqueueWifi
  split
  · cases q <;> rfl
  · rfl

theorem wifiGlobalCheck_settings (cmds : CommandStore)
    (settings : SystemSettings) (req : RemoteConfigReq) :
    (wifiGlobalCheck cmds settings req).settings = settings := by
  unfold wifiGlobalCheck
  split <;> rfl

theorem wifiGlobalCheck_cmdStore (cmds : CommandStore)
    (settings : SystemSettings) (req : RemoteConfigReq) :
    (wifiGlobalCheck cmds settings req).cmdStore = cmds := by
  unfold wifiGlobalCheck
  split <;> rfl

theorem updateRemoteConfig_device_settings (cmds : CommandStore)
    (settings : SystemSettings) (req : RemoteConfigReq) (now : Rat)
    (q1 q2 q3 : QueryOutcome) (hdev : strTruthy req.device_id = true) :
    (updateRemoteConfig cmds settings req now q1 q2 q3).settings =
      settings := by
  unfold updateRemoteConfig
  rw [if_pos hdev]
  split
  · cases q1 <;> simp [enqueueWifi_settings]
  · exact enqueueWifi_settings cmds settings req now q2 []

theorem updateRemoteConfig_global_settings (cmds : CommandStore)
    (settings : SystemSettings) (req : RemoteConfigReq) (now : Rat)
    (q1 q2 q3 : QueryOutcome) (hdev : strTruthy req.device_id = false) :
    (updateRemoteConfig cmds settings req now q1 q2 q3).settings =
      if req.soundEnabled.isSome || req.lightsEnabled.isSome ||
          req.sensorThreshold.isSome then
        (match q3 with
         | .ok => applySystemSettings settings req
         | _ => settings)
      else settings := by
  unfold updateRemoteConfig
  rw [if_neg (by simp [hdev])]
  by_cases h : (req.soundEnabled.isSome || req.lightsEnabled.isSome ||
      req.sensorThreshold.isSome) = true
  · rw [if_pos h, if_pos h]
    cases q3 <;> simp [wifiGlobalCheck_settings]
  · rw [if_neg h, if_neg h]
    exact wifiGlobalCheck_settings cmds settings req

theorem enqueueWifi_commands_sub (cmds : CommandStore)
    (settings : SystemSettings) (req : RemoteConfigReq) (now : Rat)
    (q : QueryOutcome) (ins : List (String × Option Nat)) :
    ∀ c ∈ (enqueueWifi cmds settings req now q ins).cmdStore.commands,
      c ∈ cmds.commands ∨
        (c.device_id = req.device_id.getD "" ∧
          c.expires_at = now + ratOr req.expires_hours 24 * 3600000) := by
  unfold enqueueWifi
  split
  · cases q with
    | ok =>
      intro c hc
      rcases List.mem_append.mp hc with h1 | h1
      · exact Or.inl h1
      · simp only [List.mem_singleton] at h1
        subst h1
        exact Or.inr ⟨rfl, rfl⟩
    | errRes => exact fun c hc => Or.inl hc
    | exn => exact fun c hc => Or.inl hc
  · exact fun c hc => Or.inl hc

/-- C7 counterexample: wifi credentials without a device_id while a
settings field is also present and the `system_settings` update fails —
the call returns success (200), not the claimed 400 rejection (the
credentials are still persisted nowhere: no command is inserted and the
settings row is unchanged). -/
theorem updateRemoteConfig_global_wifi_not_rejected_cex :
    (updateRemoteConfig ⟨[], 1⟩ ⟨none, none, none⟩
        { soundEnabled := some true, wifiSSID := some "homenet" }
        0 .ok .ok .errRes).resp.status = 200 ∧
    (updateRemoteConfig ⟨[], 1⟩ ⟨none, none, none⟩
        { soundEnabled := some true, wifiSSID := some "homenet" }
        0 .ok .ok .errRes).resp.success = true ∧
    (updateRemoteConfig ⟨[], 1⟩ ⟨none, none, none⟩
        { soundEnabled := some true, wifiSSID := some "homenet" }
        0 .ok .ok .errRes).cmdStore.commands = [] ∧
    (updateRemoteConfig ⟨[], 1⟩ ⟨none, none, none⟩
        { soundEnabled := some true, wifiSSID := some "homenet" }
        0 .ok .ok .errRes).settings = ⟨none, none, none⟩ := by
  exact ⟨rfl, rfl, rfl, rfl⟩

/-- C7 (amended): wifi credentials never reach the settings store — the
settings outcome is independent of the wifi fields and every command the
call inserts sits in the per-device queue with a ttl-bounded expiry; a
global wifi update (no device_id) is rejected with 400 provided the
optional settings update does not fail (on a settings-update failure the
call returns success early, still persisting no credentials). -/
theorem wifi_credentials_transient_per_device
    (cmds : CommandStore) (settings : SystemSettings)
    (req : RemoteConfigReq) (now : Rat) (q1 q2 q3 : QueryOutcome) :
    (strTruthy req.device_id = false →
      (strTruthy req.wifiSSID || strTruthy req.wifiPassword) = true →
      q3 = .ok →
      (updateRemoteConfig cmds settings req now q1 q2 q3).resp =
        ⟨400, false,
         "Provide device_id to perform wifi update on a specific device",
         none⟩ ∧
      (updateRemoteConfig cmds settings req now q1 q2 q3).cmdStore = cmds) ∧
    ((updateRemoteConfig cmds settings req now q1 q2 q3).settings =
      (updateRemoteConfig cmds settings
        { req with wifiSSID := none, wifiPassword := none } now q1 q2
        q3).settings) ∧
    (∀ c ∈ (updateRemoteConfig cmds settings req now q1 q2
        q3).cmdStore.commands,
      c ∈ cmds.commands ∨
        (c.device_id = req.device_id.getD "" ∧
          (c.expires_at = now + ratOr req.expires_hours 1 * 3600000 ∨
           c.expires_at = now + ratOr req.expires_hours 24 * 3600000))) := by
  refine ⟨?_, ?_, ?_⟩
  · intro hdev hwifi hq3
    subst hq3
    unfold updateRemoteConfig
    rw [if_neg (by simp [hdev])]
    by_cases h : (req.soundEnabled.isSome || req.lightsEnabled.isSome ||
        req.sensorThreshold.isSome) = true
    · rw [if_pos h]
      show (wifiGlobalCheck cmds (applySystemSettings settings req) req).resp
          = _ ∧ _
      unfold wifiGlobalCheck
      rw [if_pos hwifi]
      exact ⟨rfl, rfl⟩
    · rw [if_neg h]
      unfold wifiGlobalCheck
      rw [if_pos hwifi]
      exact ⟨rfl, rfl⟩
  · by_cases hdev : strTruthy req.device_id = true
    · have hdev2 : strTruthy ({ req with wifiSSID := none, wifiPassword := none } : RemoteConfigReq).device_id = true := hdev
      rw [updateRemoteConfig_device_settings cmds settings req now q1 q2 q3
          hdev,
        updateRemoteConfig_device_settings cmds settings _ now q1 q2 q3 hdev2]
    · have hdev0 : strTruthy req.device_id = false := by simpa using hdev
      have hdev2 : strTruthy ({ req with wifiSSID := none, wifiPassword := none } : RemoteConfigReq).device_id = false := hdev0
      rw [updateRemoteConfig_global_settings cmds settings req now q1 q2 q3
          hdev0,
        updateRemoteConfig_global_settings cmds settings _ now q1 q2 q3 hdev2]
      rfl
  · by_cases hdev : strTruthy req.device_id = true
    · unfold updateRemoteConfig
      rw [if_pos hdev]
      by_cases hc : (req.soundEnabled.isSome || req.lightsEnabled.isSome)
          = true
      · rw [if_pos hc]
        cases q1 with
        | ok =>
          intro c hcm
          have hsub := enqueueWifi_commands_sub
            ⟨cmds.commands ++
              [⟨cmds.nextId, req.device_id.getD "", "control",
                .control req.soundEnabled req.lightsEnabled,
                now + ratOr req.expires_hours 1 * 3600000, "pending"⟩],
             cmds.nextId + 1⟩ settings req now q2
            [("control", natTruthy (some cmds.nextId))] c hcm
          rcases hsub with h1 | h1
          · rcases List.mem_append.mp h1 with h2 | h2
            · exact Or.inl h2
            · simp only [List.mem_singleton] at h2
              subst h2
              exact Or.inr ⟨rfl, Or.inl rfl⟩
          · exact Or.inr ⟨h1.1, Or.inr h1.2⟩
        | errRes => exact fun c hc2 => Or.inl hc2
        | exn => exact fun c hc2 => Or.inl hc2
      · rw [if_neg hc]
        intro c hcm
        rcases enqueueWifi_commands_sub cmds settings req now q2 [] c hcm with
          h1 | h1
        · exact Or.inl h1
        · exact Or.inr ⟨h1.1, Or.inr h1.2⟩
    · have hdev0 : strTruthy req.device_id = false := by simpa using hdev
      unfold updateRemoteConfig
      rw [if_neg (by simp [hdev0])]
      by_cases h : (req.soundEnabled.isSome || req.lightsEnabled.isSome ||
          req.sensorThreshold.isSome) = true
      · rw [if_pos h]
        cases q3 with
        | ok =>
          intro c hcm
          rw [wifiGlobalCheck_cmdStore] at hcm
          exact Or.inl hcm
        | errRes => exact fun c hc2 => Or.inl hc2
        | exn => exact fun c hc2 => Or.inl hc2
      · rw [if_neg h]
        intro c hcm
        rw [wifiGlobalCheck_cmdStore] at hcm
        exact Or.inl hcm

/-- C7 witness: a global wifi update with a healthy settings store. -/
theorem wifi_credentials_transient_per_device_witness :
    (updateRemoteConfig ⟨[], 1⟩ ⟨none, none, none⟩
        { wifiSSID := some "net" } 0 .ok .ok .ok).resp =
      ⟨400, false,
       "Provide device_id to perform wifi update on a specific device",
       none⟩ ∧
    (updateRemoteConfig ⟨[], 1⟩ ⟨none, none, none⟩
        { wifiSSID := some "net" } 0 .ok .ok .ok).cmdStore = ⟨[], 1⟩ := by
  have h := wifi_credentials_transient_per_device ⟨[], 1⟩ ⟨none, none, none⟩
    { wifiSSID := some "net" } 0 .ok .ok .ok
  exact h.1 rfl (by decide) rfl

/-! ## Claims about fence creation -/

/-- C8 counterexample: latitude 0, longitude 30, radius 100 — all within
the claimed ranges — are rejected with 400 and nothing is inserted,
because the required-field check uses JS truthiness and `!0` is true. -/
theorem createVirtualFence_in_range_rejected_cex :
    (createVirtualFence [] 1
        { name := some "pasture", center_latitude := some 0,
          center_longitude := some 30, radius_meters := some 100 }
        .ok).2.status = 400 ∧
    (createVirtualFence [] 1
        { name := some "pasture", center_latitude := some 0,
          center_longitude := some 30, radius_meters := some 100 }
        .ok).1 = [] ∧
    (-90 : Rat) ≤ 0 ∧ (0 : Rat) ≤ 90 ∧ (-180 : Rat) ≤ 30 ∧
    (30 : Rat) ≤ 180 ∧ (50 : Rat) ≤ 100 ∧ (100 : Rat) ≤ 10000 := by
  refine ⟨rfl, rfl, by norm_num, by norm_num, by norm_num, by norm_num,
    by norm_num, by norm_num⟩

/-- C8 (amended): `createVirtualFence` rejects with 400 (inserting
nothing) every input whose latitude, longitude or radius is out of range;
it accepts an in-range input provided the name is a nonempty string and
latitude and longitude are nonzero — a zero coordinate fails the
truthiness-based required-field check and is rejected as missing. -/
theorem createVirtualFence_range_validation
    (fences : List FenceRow) (nextId : Nat) (req : FenceReq)
    (q : QueryOutcome) (v : Rat) :
    (((req.center_latitude = some v ∧ (v < -90 ∨ 90 < v)) ∨
      (req.center_longitude = some v ∧ (v < -180 ∨ 180 < v)) ∨
      (req.radius_meters = some v ∧ (v < 50 ∨ 10000 < v))) →
      (createVirtualFence fences nextId req q).2.status = 400 ∧
      (createVirtualFence fences nextId req q).1 = fences) ∧
    (∀ la lo rad : Rat,
      strTruthy req.name = true →
      req.center_latitude = some la → la ≠ 0 → -90 ≤ la → la ≤ 90 →
      req.center_longitude = some lo → lo ≠ 0 → -180 ≤ lo → lo ≤ 180 →
      req.radius_meters = some rad → 50 ≤ rad → rad ≤ 10000 →
      createVirtualFence fences nextId req .ok =
        (fences ++
          [⟨1, req.name.getD "", strOrNull req.description, la, lo, rad,
            (if strTruthy req.fence_type then req.fence_type.getD ""
             else "custom"),
            decide (req.is_active ≠ some false), 1⟩],
         ⟨201, true, "Virtual fence created successfully", some nextId⟩)) := by
  constructor
  · intro hcase
    simp only [createVirtualFence]
    split
    next => exact ⟨rfl, rfl⟩
    next hreq =>
      rcases hcase with ⟨hv, hr⟩ | ⟨hv, hr⟩ | ⟨hv, hr⟩
      · have h1 : jsNum req.center_latitude < -90 ∨
            jsNum req.center_latitude > 90 := by
          rw [hv]; exact hr
        rw [if_pos h1]
        exact ⟨rfl, rfl⟩
      · by_cases h1 : jsNum req.center_latitude < -90 ∨
            jsNum req.center_latitude > 90
        · rw [if_pos h1]; exact ⟨rfl, rfl⟩
        · rw [if_neg h1]
          have h2 : jsNum req.center_longitude < -180 ∨
              jsNum req.center_longitude > 180 := by
            rw [hv]; exact hr
          rw [if_pos h2]
          exact ⟨rfl, rfl⟩
      · by_cases h1 : jsNum req.center_latitude < -90 ∨
            jsNum req.center_latitude > 90
        · rw [if_pos h1]; exact ⟨rfl, rfl⟩
        · rw [if_neg h1]
          by_cases h2 : jsNum req.center_longitude < -180 ∨
              jsNum req.center_longitude > 180
          · rw [if_pos h2]; exact ⟨rfl, rfl⟩
          · rw [if_neg h2]
            have h3 : jsNum req.radius_meters < 50 ∨
                jsNum req.radius_meters > 10000 := by
              rw [hv]; exact hr
            rw [if_pos h3]
            exact ⟨rfl, rfl⟩
  · intro la lo rad hname hla hla0 hla1 hla2 hlo hlo0 hlo1 hlo2 hrad hrad1
      hrad2
    have hrne : rad ≠ 0 := by
      intro h0
      rw [h0] at hrad1
      norm_num at hrad1
    have hreqb : (!(strTruthy req.name && ratTruthy req.center_latitude &&
        ratTruthy req.center_longitude && ratTruthy req.radius_meters))
        = false := by
      simp [hname, ratTruthy, hla, hlo, hrad, hla0, hlo0, hrne]
    simp only [createVirtualFence, hreqb, Bool.false_eq_true, if_false]
    have e1 : jsNum req.center_latitude = la := by rw [hla]; rfl
    have e2 : jsNum req.center_longitude = lo := by rw [hlo]; rfl
    have e3 : jsNum req.radius_meters = rad := by rw [hrad]; rfl
    rw [e1, e2, e3]
    rw [if_neg (by rintro (h | h) <;> linarith)]
    rw [if_neg (by rintro (h | h) <;> linarith)]
    rw [if_neg (by rintro (h | h) <;> linarith)]

/-- C8 witness: an out-of-range latitude is rejected, an in-range fence is
inserted. -/
theorem createVirtualFence_range_validation_witness :
    (createVirtualFence [] 1
        { name := some "north", center_latitude := some 100,
          center_longitude := some 30, radius_meters := some 100 }
        .ok).2.status = 400 ∧
    createVirtualFence [] 1
        { name := some "pasture", center_latitude := some 10,
          center_longitude := some 20, radius_meters := some 100 } .ok =
      ([⟨1, "pasture", none, 10, 20, 100, "custom", true, 1⟩],
       ⟨201, true, "Virtual fence created successfully", some 1⟩) := by
  constructor
  · exact ((createVirtualFence_range_validation [] 1
      { name := some "north", center_latitude := some 100,
        center_longitude := some 30, radius_meters := some 100 }
      .ok 100).1 (Or.inl ⟨rfl, Or.inr (by norm_num)⟩)).1
  · have h := (createVirtualFence_range_validation [] 1
      { name := some "pasture", center_latitude := some 10,
        center_longitude := some 20, radius_meters := some 100 }
      .ok 0).2 10 20 100 (by decide) rfl (by norm_num) (by norm_num)
      (by norm_num) rfl (by norm_num) (by norm_num) (by norm_num) rfl
      (by norm_num) (by norm_num)
    rw [h]
    rfl

/-! ## Claims about alert recording -/

theorem truncateTo_length (n : Nat) (s : String) :
    (truncateTo n s).length ≤ n := by
  unfold truncateTo
  split
  next h =>
    show (s.data.take n).length ≤ n
    rw [List.length_take]
    exact Nat.min_le_left n s.data.length
  next h =>
    exact Nat.le_of_not_lt h

theorem truncateTo_data (n : Nat) (s : String) :
    (truncateTo n s).data = s.data.take n := by
  unfold truncateTo
  split
  next h => rfl
  next h =>
    exact (List.take_of_length_le (Nat.le_of_not_lt h)).symm

/-- C9: `handleAlert` maps any payload to a bounded-length alert row —
alert_type, severity and title are the truncations (prefixes) of the raw
values at 100, 32 and 255 characters — persists it with a 201 success
response, and the outcome of the optional email side-effect changes
neither the stored alerts nor the response. -/
theorem handleAlert_truncates_and_persists
    (alerts : List AlertRow) (nextId : Nat) (p : AlertPayload)
    (smtp e1 e2 : Bool) :
    (alertRowOf p).alert_type.length ≤ 100 ∧
    (alertRowOf p).severity.length ≤ 32 ∧
    (alertRowOf p).title.length ≤ 255 ∧
    (alertRowOf p).alert_type.data = (rawAlertType p).data.take 100 ∧
    (alertRowOf p).severity.data = (rawSeverity p).data.take 32 ∧
    (alertRowOf p).title.data = (rawTitle p).data.take 255 ∧
    (handleAlert alerts nextId p .ok smtp e1).1 = alerts ++ [alertRowOf p] ∧
    (handleAlert alerts nextId p .ok smtp e1).2.2 =
      ⟨201, true, "Alert recorded", natTruthy (some nextId)⟩ ∧
    (handleAlert alerts nextId p .ok smtp e1).1 =
      (handleAlert alerts nextId p .ok smtp e2).1 ∧
    (handleAlert alerts nextId p .ok smtp e1).2.2 =
      (handleAlert alerts nextId p .ok smtp e2).2.2 := by
  exact ⟨truncateTo_length 100 (rawAlertType p),
    truncateTo_length 32 (rawSeverity p),
    truncateTo_length 255 (rawTitle p),
    truncateTo_data 100 (rawAlertType p),
    truncateTo_data 32 (rawSeverity p),
    truncateTo_data 255 (rawTitle p),
    rfl, rfl, rfl, rfl⟩

end CattleFarm
